import Mathlib

/-!
Shallow embedding of the sandwich-detection pipeline of `src/app.py`:
the swap classifier (`is_dex_interaction`, `analyze_swap_direction`),
the pattern matcher (`detect_sandwich_patterns`), the `/analyze` route
(`analyze`) and the processing loop of the CLI pipeline
(`detect_sandwich_attacks`).  JSON payloads are modelled by small inductive
types covering exactly the shapes the code distinguishes; Python `None` is
`Option.none`, Python dict `.get` defaults are `Option.getD`.
-/

namespace SandwichAlert

/-- Swap direction relative to the target token (`"buy"` / `"sell"` in the
source; Python `None` is modelled by `Option.none` around this type). -/
inductive Direction where
  | buy
  | sell
deriving DecidableEq, Repr

/-- The `tokenAmount` field of a token transfer (src/app.py:174-180): either
a JSON object whose `amount` entry may be present (a string), or some
non-object value, in which case the code uses `"0"`. -/
inductive TokenAmount where
  | dict (amount : Option String)
  | nondict
deriving DecidableEq, Repr

/-- One element of the `tokenTransfers` list (src/app.py:168-190): either a
JSON object with the three fields the classifier reads (`mint`,
`tokenAmount`, `transferType`), or a non-object element, which the loop
skips.  A missing field is `none`. -/
inductive TransferItem where
  | nondict
  | dict (mint : Option String) (tokenAmount : TokenAmount) (transferType : Option String)
deriving DecidableEq, Repr

/-- The `tokenTransfers` field (src/app.py:158-161): a list, or some
non-list value.  A missing field defaults to the empty list
(`tx_data.get("tokenTransfers", [])`), so "missing" is `.list []`. -/
inductive TransfersField where
  | list (items : List TransferItem)
  | nonlist
deriving DecidableEq, Repr

/-- The fields of a transaction-detail object that the code reads:
`successful` (missing defaults to `True`, src/app.py:153), `tokenTransfers`,
and the `programId` of each instruction (src/app.py:136-137; a missing
`instructions` key defaults to the empty list and a missing `programId` to
`none`). -/
structure TxDict where
  successful : Option Bool
  tokenTransfers : TransfersField
  instructions : List (Option String)
deriving DecidableEq, Repr

/-- A transaction-detail value: a JSON object, or some non-object value
(src/app.py:149-151 checks `isinstance(tx_data, dict)`). -/
inductive TxData where
  | nondict
  | dict (d : TxDict)
deriving DecidableEq, Repr

/-- Python truthiness of an optional string: `None` and `""` are falsy,
every other string is truthy. -/
def pyTruthy : Option String → Bool
  | none => false
  | some s => s != ""

/-- `is_dex_interaction` (src/app.py:131-141): true iff some instruction's
`programId` is a member of the configured DEX-program list.  A non-object
payload yields false, and a missing `programId` (`None`) is never a member
of the list of strings. -/
def is_dex_interaction (tx_data : TxData) (dexPrograms : List String) : Bool :=
  match tx_data with
  | .nondict => false
  | .dict d =>
    d.instructions.any fun programId =>
      match programId with
      | some p => dexPrograms.contains p
      | none => false

/-- The transfer loop of `analyze_swap_direction` (src/app.py:168-190),
threading the mutable `input_token` / `output_token` state through the list
of transfers.  A transfer whose `mint` equals the target token and whose
amount is non-`"0"` records the target token as the output leg when its
`transferType` is `transfer`, `mintTo` or `burn`; every other transfer
overwrites the input leg with its `mint` (including `none`). -/
def swapLoop (token_address : String) :
    List TransferItem → Option String → Option String → Option String × Option String
  | [], input_token, output_token => (input_token, output_token)
  | item :: rest, input_token, output_token =>
    match item with
    | .nondict => swapLoop token_address rest input_token output_token
    | .dict mint tokenAmount transferType =>
      let amount : String :=
        match tokenAmount with
        | .dict a => a.getD "0"
        | .nondict => "0"
      if mint = some token_address then
        if amount = "0" then
          swapLoop token_address rest input_token output_token
        else if transferType = some "transfer" ∨ transferType = some "mintTo" then
          swapLoop token_address rest input_token (some token_address)
        else if transferType = some "burn" then
          swapLoop token_address rest input_token (some token_address)
        else
          swapLoop token_address rest input_token output_token
      else
        swapLoop token_address rest mint output_token

/-- `analyze_swap_direction` (src/app.py:143-200): classify the swap
direction of a transaction relative to the target token.  `none` models
the Python `None` return. -/
def analyze_swap_direction (tx_data : TxData) (token_address : String) : Option Direction :=
  match tx_data with
  | .nondict => none
  | .dict d =>
    if !d.successful.getD true then none
    else
      match d.tokenTransfers with
      | .nonlist => none
      | .list items =>
        let st := swapLoop token_address items none none
        if pyTruthy st.1 ∧ st.2 = some token_address then some .buy
        else if st.1 = some token_address ∧ pyTruthy st.2 ∧ st.2 ≠ some token_address then
          some .sell
        else none

/-- A processed transaction as built by the `/analyze` route
(src/app.py:366-372).  `timestamp` is `none` when the summary's timestamp
is missing or non-numeric (the route stores it unvalidated). -/
structure ProcessedTx where
  signature : String
  timestamp : Option Int
  details : TxDict
  isDex : Bool
  direction : Option Direction
deriving DecidableEq, Repr

/-- A sandwich finding as built by `detect_sandwich_patterns`
(src/app.py:414-428): the pattern name, the `[prev, curr, next]` triple and
the two time gaps. -/
structure Finding where
  type : String
  transactions : List ProcessedTx
  timeDiffs : List Nat
deriving DecidableEq, Repr

instance : Inhabited Finding := ⟨⟨"", [], []⟩⟩

/-- The DEX-sequence (src/app.py:396): entries with `isDex` true and a
truthy (non-`None`) direction. -/
def dexFilter (transactions : List ProcessedTx) : List ProcessedTx :=
  transactions.filter fun t => t.isDex && t.direction.isSome

/-- One iteration of the pattern loop (src/app.py:398-428) at window index
`i`, reading `dex[i-1]`, `dex[i]`, `dex[i+1]`.  `Except.error` models the
`TypeError` Python raises in the gap arithmetic when one of the three
timestamps is missing or non-numeric (the route surfaces it as a 500
response); out-of-range indices never occur for the indices the loop uses
and are mapped to "no finding". -/
def windowStep (dex : List ProcessedTx) (i : Nat) : Except Unit (Option Finding) :=
  match dex[i-1]?, dex[i]?, dex[i+1]? with
  | some prev_tx, some curr_tx, some next_tx =>
    match prev_tx.timestamp, curr_tx.timestamp, next_tx.timestamp with
    | some tPrev, some tCurr, some tNext =>
      if (tCurr - tPrev).natAbs > 30 ∨ (tNext - tCurr).natAbs > 30 then Except.ok none
      else if prev_tx.direction = some .buy ∧ curr_tx.direction = some .buy ∧
          next_tx.direction = some .sell then
        Except.ok (some ⟨"buy-victim-sell", [prev_tx, curr_tx, next_tx],
          [(tCurr - tPrev).natAbs, (tNext - tCurr).natAbs]⟩)
      else if prev_tx.direction = some .sell ∧ curr_tx.direction = some .sell ∧
          next_tx.direction = some .buy then
        Except.ok (some ⟨"sell-victim-buy", [prev_tx, curr_tx, next_tx],
          [(tCurr - tPrev).natAbs, (tNext - tCurr).natAbs]⟩)
      else Except.ok none
    | _, _, _ => Except.error ()
  | _, _, _ => Except.ok none

/-- The pattern loop over the list of window indices, accumulating findings
in order and aborting on the first arithmetic error. -/
def detect_go (dex : List ProcessedTx) : List Nat → Except Unit (List Finding)
  | [] => Except.ok []
  | i :: rest =>
    match windowStep dex i with
    | Except.error e => Except.error e
    | Except.ok f =>
      match detect_go dex rest with
      | Except.error e => Except.error e
      | Except.ok fs => Except.ok (f.toList ++ fs)

/-- `detect_sandwich_patterns` (src/app.py:393-430): filter to the
DEX-sequence and scan every interior window index, Python's
`range(1, len(dex_transactions) - 1)`. -/
def detect_sandwich_patterns (transactions : List ProcessedTx) :
    Except Unit (List Finding) :=
  let dex := dexFilter transactions
  detect_go dex (List.range' 1 (dex.length - 2))

/-- Whether the window at index `i` of the DEX-sequence emits a finding. -/
def emitsAt (dex : List ProcessedTx) (i : Nat) : Bool :=
  match windowStep dex i with
  | Except.ok (some _) => true
  | _ => false

/-- The finding emitted at window index `i` (defaulting when none is
emitted). -/
def findingAt (dex : List ProcessedTx) (i : Nat) : Finding :=
  match windowStep dex i with
  | Except.ok (some f) => f
  | _ => default

/-- The window indices of the scan that emit findings. -/
def emittingWindows (dex : List ProcessedTx) : List Nat :=
  (List.range' 1 (dex.length - 2)).filter (emitsAt dex)

/-- A transaction summary from the provider listing: the two fields the
code reads.  `signature` is `none` when missing and `timestamp` is `none`
when missing or non-numeric. -/
structure TxSummary where
  signature : Option String
  timestamp : Option Int
deriving DecidableEq, Repr

/-- Outcome of the provider's listing HTTP call as seen by
`fetch_token_transactions`. -/
inductive ListingResponse where
  | failure
  | nonlist
  | items (transactions : List TxSummary)
deriving DecidableEq, Repr

/-- `fetch_token_transactions` (src/app.py:111-129): transport errors and
non-list payloads degrade to the empty list. -/
def fetch_token_transactions : ListingResponse → List TxSummary
  | .failure => []
  | .nonlist => []
  | .items transactions => transactions

/-- The processing loop of the `/analyze` route (src/app.py:357-373): skip
summaries with a falsy signature or a failed detail fetch, and build a
processed record for every remaining occurrence (there is no deduplication
and no timestamp validation in this loop). -/
def analyzeProcess (fetchDetail : String → Option TxDict) (dexPrograms : List String)
    (token_address : String) : List TxSummary → List ProcessedTx
  | [] => []
  | tx :: rest =>
    match tx.signature with
    | none => analyzeProcess fetchDetail dexPrograms token_address rest
    | some signature =>
      if signature = "" then analyzeProcess fetchDetail dexPrograms token_address rest
      else
        match fetchDetail signature with
        | none => analyzeProcess fetchDetail dexPrograms token_address rest
        | some tx_details =>
          { signature := signature
            timestamp := tx.timestamp
            details := tx_details
            isDex := is_dex_interaction (.dict tx_details) dexPrograms
            direction := analyze_swap_direction (.dict tx_details) token_address } ::
            analyzeProcess fetchDetail dexPrograms token_address rest

/-- The JSON value supplied for `lookbackLimit`: a number or a string. -/
inductive LookbackInput where
  | num (n : Int)
  | str (s : String)
deriving DecidableEq, Repr

/-- The numeric value of a decimal-digit character, `none` otherwise. -/
def digitVal (c : Char) : Option Nat :=
  if 48 ≤ c.toNat ∧ c.toNat ≤ 57 then some (c.toNat - 48) else none

/-- Accumulate the decimal value of a digit string, failing on the first
non-digit. -/
def parseNatDigits : List Char → Nat → Option Nat
  | [], acc => some acc
  | c :: cs, acc =>
    match digitVal c with
    | none => none
    | some d => parseNatDigits cs (acc * 10 + d)

/-- Python `int(...)` on a string: an optional sign followed by at least one
decimal digit; `none` models the `ValueError` on anything else (CPython's
tolerance for surrounding whitespace and underscores is outside the
model). -/
def pyIntOfString (s : String) : Option Int :=
  match s.data with
  | [] => none
  | '-' :: cs =>
    match cs with
    | [] => none
    | _ => (parseNatDigits cs 0).map (fun n => -(n : Int))
  | '+' :: cs =>
    match cs with
    | [] => none
    | _ => (parseNatDigits cs 0).map (fun n => (n : Int))
  | cs => (parseNatDigits cs 0).map (fun n => (n : Int))

/-- Python `int(...)` on the supported inputs: a number passes through and
a string is parsed; `none` models the `ValueError` on an unparsable
string. -/
def pyInt : LookbackInput → Option Int
  | .num n => some n
  | .str s => pyIntOfString s

/-- Lines src/app.py:342-345: `min(int(lookback_limit), MAX_LOOKBACK_LIMIT)`;
`none` models the `ValueError` branch that produces the 400 response.
There is no lower clamp. -/
def clampLookback (maxLookback : Int) (v : LookbackInput) : Option Int :=
  match pyInt v with
  | none => none
  | some n => some (min n maxLookback)

/-- The `stats` object of the route's success response (src/app.py:383-387). -/
structure Stats where
  totalTransactions : Nat
  dexTransactions : Nat
  potentialAttacks : Nat
deriving DecidableEq, Repr

/-- The success payload of the `/analyze` route (src/app.py:378-388). -/
structure AnalyzeOk where
  tokenAddress : String
  transactions : List ProcessedTx
  potentialSandwiches : List Finding
  stats : Stats
deriving DecidableEq, Repr

/-- The route's possible responses: the success payload, a 400 error with
its message, or the 500 handler of the enclosing `try`. -/
inductive AnalyzeResult where
  | ok (r : AnalyzeOk)
  | badRequest (message : String)
  | serverError
deriving DecidableEq, Repr

/-- The `/analyze` route (src/app.py:337-391).  The provider is modelled by
`listTransactions` (the listing call, a function of the limit the code
passes to it) and `fetchDetail` (the per-signature detail fetch; `none`
covers transport failure and unusable payloads, which the loop skips;
`fetch_transaction_details` only ever returns a dict, src/app.py:92-103). -/
def analyze (fetchDetail : String → Option TxDict) (dexPrograms : List String)
    (maxLookback defaultLookback : Int) (listTransactions : Int → ListingResponse)
    (tokenAddress : Option String) (lookbackLimit : Option LookbackInput) : AnalyzeResult :=
  match clampLookback maxLookback (lookbackLimit.getD (.num defaultLookback)) with
  | none => .badRequest "Invalid lookback limit"
  | some lookback_limit =>
    match tokenAddress with
    | none => .badRequest "Token address is required"
    | some token_address =>
      if token_address = "" then .badRequest "Token address is required"
      else
        let transactions := fetch_token_transactions (listTransactions lookback_limit)
        let processed_transactions :=
          analyzeProcess fetchDetail dexPrograms token_address transactions
        match detect_sandwich_patterns processed_transactions with
        | .error _ => .serverError
        | .ok potential_sandwiches =>
          .ok { tokenAddress := token_address
                transactions := processed_transactions
                potentialSandwiches := potential_sandwiches
                stats := { totalTransactions := transactions.length
                           dexTransactions :=
                             (processed_transactions.filter (·.isDex)).length
                           potentialAttacks := potential_sandwiches.length } }

/-- An entry of the `dex_transactions` list built by
`detect_sandwich_attacks` (src/app.py:236-241). -/
structure DexTx where
  signature : String
  direction : Direction
  timestamp : Int
  details : TxDict
deriving DecidableEq, Repr

/-- The processing loop of `detect_sandwich_attacks` (src/app.py:217-246):
skip falsy or already-analyzed signatures, record the signature as analyzed
before fetching, then fetch the detail, validate the summary timestamp
(after the fetch), and keep DEX transactions with a truthy direction. -/
def detectLoop (fetchDetail : String → Option TxDict) (dexPrograms : List String)
    (token_address : String) : List TxSummary → List String → List DexTx
  | [], _ => []
  | tx :: rest, analyzed_signatures =>
    match tx.signature with
    | none => detectLoop fetchDetail dexPrograms token_address rest analyzed_signatures
    | some signature =>
      if signature = "" ∨ signature ∈ analyzed_signatures then
        detectLoop fetchDetail dexPrograms token_address rest analyzed_signatures
      else
        let analyzed' := signature :: analyzed_signatures
        match fetchDetail signature with
        | none => detectLoop fetchDetail dexPrograms token_address rest analyzed'
        | some tx_details =>
          match tx.timestamp with
          | none => detectLoop fetchDetail dexPrograms token_address rest analyzed'
          | some timestamp =>
            if is_dex_interaction (.dict tx_details) dexPrograms then
              match analyze_swap_direction (.dict tx_details) token_address with
              | some swap_dir =>
                ⟨signature, swap_dir, timestamp, tx_details⟩ ::
                  detectLoop fetchDetail dexPrograms token_address rest analyzed'
              | none => detectLoop fetchDetail dexPrograms token_address rest analyzed'
            else detectLoop fetchDetail dexPrograms token_address rest analyzed'

/-- A minimal successful transaction-detail payload: no transfers, no
instructions. -/
def sampleDict : TxDict := ⟨none, .list [], []⟩

/-- A detail payload that classifies as a DEX buy of token `"tok"`: one
non-target input transfer, one target-token output transfer, and one
instruction whose program is `"DEX1"`. -/
def buyDict : TxDict :=
  ⟨none,
   .list [.dict (some "other") (.dict (some "1")) none,
          .dict (some "tok") (.dict (some "5")) (some "transfer")],
   [some "DEX1"]⟩

/-- A processed DEX transaction with the given signature, timestamp and
direction, used to build concrete scenarios. -/
def mkDexTx (signature : String) (timestamp : Int) (direction : Direction) : ProcessedTx :=
  ⟨signature, some timestamp, sampleDict, true, some direction⟩

/-- Scenario A of the behaviour description: timestamps 0, 5, 10 with
directions buy, buy, sell. -/
def scenarioA : List ProcessedTx :=
  [mkDexTx "a0" 0 .buy, mkDexTx "a1" 5 .buy, mkDexTx "a2" 10 .sell]

/-- Boundary input: gaps of exactly 30 seconds. -/
def scenarioGap30 : List ProcessedTx :=
  [mkDexTx "b0" 0 .buy, mkDexTx "b1" 30 .buy, mkDexTx "b2" 60 .sell]

/-- Boundary input: gaps of 31 seconds. -/
def scenarioGap31 : List ProcessedTx :=
  [mkDexTx "c0" 0 .buy, mkDexTx "c1" 31 .buy, mkDexTx "c2" 62 .sell]

/-- The output leg of the transfer loop is only ever the target token (or
still unset): both branches that write it write `token_address`
(src/app.py:186 and 188). -/
theorem swapLoop_snd_none_or_token (token_address : String) (items : List TransferItem)
    (input_token output_token : Option String)
    (h : output_token = none ∨ output_token = some token_address) :
    (swapLoop token_address items input_token output_token).2 = none ∨
    (swapLoop token_address items input_token output_token).2 = some token_address := by
  induction items generalizing input_token output_token with
  | nil => simpa [swapLoop] using h
  | cons item rest ih =>
    cases item with
    | nondict => exact ih _ _ h
    | dict mint tokenAmount transferType =>
      simp only [swapLoop]
      split_ifs with h1 h2 h3 h4
      · exact ih _ _ h
      · exact ih _ _ (Or.inr rfl)
      · exact ih _ _ (Or.inr rfl)
      · exact ih _ _ h
      · exact ih _ _ h

/-- Claim C10: for every transaction detail and every target token the
direction classifier returns `buy` or `none`, never `sell`: the output leg
is only ever set to the target token itself, so the sell condition (output
leg present and different from the target) is unsatisfiable. -/
theorem C10_classifier_never_sell (tx_data : TxData) (token_address : String) :
    analyze_swap_direction tx_data token_address = some Direction.buy ∨
    analyze_swap_direction tx_data token_address = none := by
  cases tx_data with
  | nondict => right; rfl
  | dict d =>
    by_cases hs : (!d.successful.getD true) = true
    · right; simp [analyze_swap_direction, hs]
    · cases ht : d.tokenTransfers with
      | nonlist => right; simp [analyze_swap_direction, hs, ht]
      | list items =>
        have hout := swapLoop_snd_none_or_token token_address items none none (Or.inl rfl)
        simp only [analyze_swap_direction, hs, ht, Bool.false_eq_true, if_false]
        split_ifs with h1 h2
        · left; rfl
        · exfalso
          rcases hout with h | h
          · rw [h] at h2
            exact absurd h2.2.1 (by simp [pyTruthy])
          · exact h2.2.2 h
        · right; rfl

/-- Claim C8: a transaction detail that is not an object, or explicitly
marked unsuccessful, or whose token-transfer field is not a list, or whose
transfer list is empty, classifies as `none`; and a processed transaction
whose direction is `none` is excluded from the DEX-sequence. -/
theorem C8_malformed_classifies_none :
    (∀ token_address, analyze_swap_direction TxData.nondict token_address = none) ∧
    (∀ (d : TxDict) (token_address : String), d.successful = some false →
      analyze_swap_direction (TxData.dict d) token_address = none) ∧
    (∀ (s : Option Bool) (instr : List (Option String)) (token_address : String),
      analyze_swap_direction (TxData.dict ⟨s, .nonlist, instr⟩) token_address = none) ∧
    (∀ (s : Option Bool) (instr : List (Option String)) (token_address : String),
      analyze_swap_direction (TxData.dict ⟨s, .list [], instr⟩) token_address = none) ∧
    (∀ (transactions : List ProcessedTx) (t : ProcessedTx),
      t.direction = none → t ∉ dexFilter transactions) := by
  refine ⟨fun _ => rfl, ?_, ?_, ?_, ?_⟩
  · intro d token_address hsucc
    simp [analyze_swap_direction, hsucc]
  · intro s instr token_address
    cases s with
    | none => simp [analyze_swap_direction]
    | some b => cases b <;> simp [analyze_swap_direction]
  · intro s instr token_address
    cases s with
    | none => simp [analyze_swap_direction, swapLoop, pyTruthy]
    | some b => cases b <;> simp [analyze_swap_direction, swapLoop, pyTruthy]
  · intro transactions t hdir hmem
    have := List.of_mem_filter hmem
    simp [hdir] at this

/-- Evaluation of one window of the pattern loop once the three entries and
their timestamps are known. -/
theorem windowStep_eval {dex : List ProcessedTx} {i : Nat} {p c n : ProcessedTx}
    {tp tc tn : Int}
    (hp : dex[i-1]? = some p) (hc : dex[i]? = some c) (hn : dex[i+1]? = some n)
    (htp : p.timestamp = some tp) (htc : c.timestamp = some tc)
    (htn : n.timestamp = some tn) :
    windowStep dex i =
      (if (tc - tp).natAbs > 30 ∨ (tn - tc).natAbs > 30 then Except.ok none
       else if p.direction = some Direction.buy ∧ c.direction = some Direction.buy ∧
           n.direction = some Direction.sell then
         Except.ok (some ⟨"buy-victim-sell", [p, c, n],
           [(tc - tp).natAbs, (tn - tc).natAbs]⟩)
       else if p.direction = some Direction.sell ∧ c.direction = some Direction.sell ∧
           n.direction = some Direction.buy then
         Except.ok (some ⟨"sell-victim-buy", [p, c, n],
           [(tc - tp).natAbs, (tn - tc).natAbs]⟩)
       else Except.ok none) := by
  simp only [windowStep, hp, hc, hn, htp, htc, htn]

/-- Inversion of one window of the pattern loop: an emitted finding comes
from three in-range entries with present timestamps, gaps at most 30, and
one of the two direction patterns. -/
theorem windowStep_ok_some {dex : List ProcessedTx} {i : Nat} {f : Finding}
    (h : windowStep dex i = Except.ok (some f)) :
    ∃ p c n tp tc tn, dex[i-1]? = some p ∧ dex[i]? = some c ∧ dex[i+1]? = some n ∧
      p.timestamp = some tp ∧ c.timestamp = some tc ∧ n.timestamp = some tn ∧
      (tc - tp).natAbs ≤ 30 ∧ (tn - tc).natAbs ≤ 30 ∧
      f.transactions = [p, c, n] ∧
      f.timeDiffs = [(tc - tp).natAbs, (tn - tc).natAbs] ∧
      ((p.direction = some Direction.buy ∧ c.direction = some Direction.buy ∧
          n.direction = some Direction.sell ∧ f.type = "buy-victim-sell") ∨
       (p.direction = some Direction.sell ∧ c.direction = some Direction.sell ∧
          n.direction = some Direction.buy ∧ f.type = "sell-victim-buy")) := by
  unfold windowStep at h
  split at h
  case _ prev curr next hp hc hn =>
    split at h
    case _ tp tc tn htp htc htn =>
      split at h
      · exact absurd h (by simp)
      · rename_i hgap
        push_neg at hgap
        split at h
        · rename_i hbbs
          injection h with h
          injection h with h
          subst h
          exact ⟨prev, curr, next, tp, tc, tn, hp, hc, hn, htp, htc, htn,
            hgap.1, hgap.2, rfl, rfl, Or.inl ⟨hbbs.1, hbbs.2.1, hbbs.2.2, rfl⟩⟩
        · split at h
          · rename_i hssb
            injection h with h
            injection h with h
            subst h
            exact ⟨prev, curr, next, tp, tc, tn, hp, hc, hn, htp, htc, htn,
              hgap.1, hgap.2, rfl, rfl, Or.inr ⟨hssb.1, hssb.2.1, hssb.2.2, rfl⟩⟩
          · exact absurd h (by simp)
    all_goals exact absurd h (by simp)
  case _ => exact absurd h (by simp)

/-- `emitsAt` holds exactly when the window emits a finding. -/
theorem emitsAt_true_iff {dex : List ProcessedTx} {i : Nat} :
    emitsAt dex i = true ↔ ∃ f, windowStep dex i = Except.ok (some f) := by
  unfold emitsAt
  cases hw : windowStep dex i with
  | error e => simp
  | ok f => cases f <;> simp

/-- `findingAt` recovers the emitted finding. -/
theorem findingAt_eq {dex : List ProcessedTx} {i : Nat} {f : Finding}
    (h : windowStep dex i = Except.ok (some f)) : findingAt dex i = f := by
  simp [findingAt, h]

/-- A successful run of the pattern loop returns exactly the findings of the
emitting windows, in index order. -/
theorem detect_go_ok {dex : List ProcessedTx} {l : List Nat} {fs : List Finding}
    (h : detect_go dex l = Except.ok fs) :
    fs = (l.filter (emitsAt dex)).map (findingAt dex) := by
  induction l generalizing fs with
  | nil =>
    simp only [detect_go] at h
    injection h with h
    simp [← h]
  | cons i rest ih =>
    simp only [detect_go] at h
    cases hw : windowStep dex i with
    | error e => rw [hw] at h; exact absurd h (by simp)
    | ok f =>
      rw [hw] at h
      cases hr : detect_go dex rest with
      | error e => rw [hr] at h; exact absurd h (by simp)
      | ok fs' =>
        rw [hr] at h
        injection h with h
        subst h
        cases f with
        | none =>
          have he : emitsAt dex i = false := by simp [emitsAt, hw]
          simp [List.filter_cons, he, ih hr]
        | some x =>
          have he : emitsAt dex i = true := by simp [emitsAt, hw]
          have hf : findingAt dex i = x := findingAt_eq hw
          simp [List.filter_cons, he, hf, ih hr]

/-- Two adjacent windows can never both emit: the window at `i` forces
`dex[i].direction ≠ dex[i+1].direction` while the window at `i+1` forces
them equal. -/
theorem not_emitsAt_adjacent {dex : List ProcessedTx} {i : Nat}
    (h : emitsAt dex i = true) : emitsAt dex (i + 1) = false := by
  rcases emitsAt_true_iff.mp h with ⟨f, hf⟩
  rcases windowStep_ok_some hf with
    ⟨p, c, n, tp, tc, tn, hp, hc, hn, _, _, _, _, _, _, _, hpat⟩
  cases he : emitsAt dex (i + 1) with
  | false => rfl
  | true =>
    exfalso
    rcases emitsAt_true_iff.mp he with ⟨g, hg⟩
    rcases windowStep_ok_some hg with
      ⟨p', c', n', _, _, _, hp', hc', hn', _, _, _, _, _, _, _, hpat'⟩
    have hip : dex[i]? = some p' := by simpa using hp'
    have hpc : p' = c := by rw [hc] at hip; exact (Option.some.inj hip).symm
    have hcn : c' = n := by rw [hn] at hc'; exact (Option.some.inj hc').symm
    subst hpc hcn
    rcases hpat with ⟨_, h1, h2, _⟩ | ⟨_, h1, h2, _⟩ <;>
      rcases hpat' with ⟨h3, h4, _, _⟩ | ⟨h3, h4, _, _⟩ <;> simp_all

/-- A list of naturals without duplicates whose members all equal `a` has
length at most one. -/
theorem nodup_length_le_one {l : List Nat} {a : Nat} (hnd : l.Nodup)
    (h : ∀ x ∈ l, x = a) : l.length ≤ 1 := by
  cases l with
  | nil => simp
  | cons x xs =>
    have hx : x = a := h x (by simp)
    subst hx
    cases xs with
    | nil => simp
    | cons y ys =>
      have hy : y = x := (h y (by simp)).trans (h x (by simp)).symm
      subst hy
      have := (List.nodup_cons.mp hnd).1
      simp at this

/-- A list of naturals without duplicates whose members all equal `a` or `b`
has length at most two. -/
theorem nodup_length_le_two {l : List Nat} {a b : Nat} (hnd : l.Nodup)
    (h : ∀ x ∈ l, x = a ∨ x = b) : l.length ≤ 2 := by
  cases l with
  | nil => simp
  | cons x xs =>
    have hnd' := List.nodup_cons.mp hnd
    have hlen : xs.length ≤ 1 := by
      rcases h x (by simp) with hx | hx
      · subst hx
        refine nodup_length_le_one (a := b) hnd'.2 fun y hy => ?_
        rcases h y (by simp [hy]) with h' | h'
        · subst h'; exact absurd hy hnd'.1
        · exact h'
      · subst hx
        refine nodup_length_le_one (a := a) hnd'.2 fun y hy => ?_
        rcases h y (by simp [hy]) with h' | h'
        · exact h'
        · subst h'; exact absurd hy hnd'.1
    simpa using Nat.succ_le_succ hlen

/-- The scanned window indices have no duplicates, hence neither do the
emitting ones. -/
theorem emittingWindows_nodup (dex : List ProcessedTx) : (emittingWindows dex).Nodup :=
  List.Nodup.filter _ (List.nodup_range' 1 (dex.length - 2))

/-- At most two emitting windows reference the DEX-sequence entry at
position `j` (a window `i` references positions `i-1`, `i` and `i+1`). -/
theorem emittingWindows_near_le_two (dex : List ProcessedTx) (j : Nat) :
    ((emittingWindows dex).filter
      (fun i => decide (i = j + 1 ∨ i = j ∨ i + 1 = j))).length ≤ 2 := by
  have hnd : ((emittingWindows dex).filter
      (fun i => decide (i = j + 1 ∨ i = j ∨ i + 1 = j))).Nodup :=
    (emittingWindows_nodup dex).filter _
  by_cases hj : emitsAt dex j = true
  · refine le_trans (nodup_length_le_one (a := j) hnd fun x hx => ?_) (by norm_num)
    have hx' := List.mem_filter.mp hx
    have hemx : emitsAt dex x = true := (List.mem_filter.mp hx'.1).2
    rcases of_decide_eq_true hx'.2 with h1 | h1 | h1
    · exfalso
      rw [h1] at hemx
      rw [not_emitsAt_adjacent hj] at hemx
      exact Bool.false_ne_true hemx
    · exact h1
    · exfalso
      have hadj := not_emitsAt_adjacent hemx
      rw [h1] at hadj
      rw [hadj] at hj
      exact Bool.false_ne_true hj
  · refine nodup_length_le_two (a := j + 1) (b := j - 1) hnd fun x hx => ?_
    have hx' := List.mem_filter.mp hx
    have hemx : emitsAt dex x = true := (List.mem_filter.mp hx'.1).2
    rcases of_decide_eq_true hx'.2 with h1 | h1 | h1
    · exact Or.inl h1
    · exact absurd (h1 ▸ hemx) hj
    · right; omega

/-- Claim C1: every finding emitted by `detect_sandwich_patterns` references
only transactions that have `isDex = true` and a non-`none` direction. -/
theorem C1_findings_reference_only_classified_dex
    (transactions : List ProcessedTx) (fs : List Finding)
    (h : detect_sandwich_patterns transactions = Except.ok fs) :
    ∀ f ∈ fs, ∀ t ∈ f.transactions, t.isDex = true ∧ t.direction ≠ none := by
  intro f hf t ht
  have hcorr : fs = ((List.range' 1 ((dexFilter transactions).length - 2)).filter
      (emitsAt (dexFilter transactions))).map (findingAt (dexFilter transactions)) :=
    detect_go_ok h
  rw [hcorr] at hf
  rcases List.mem_map.mp hf with ⟨i, hi, hfi⟩
  have hem : emitsAt (dexFilter transactions) i = true := (List.mem_filter.mp hi).2
  rcases emitsAt_true_iff.mp hem with ⟨g, hg⟩
  have hfg : findingAt (dexFilter transactions) i = g := findingAt_eq hg
  rcases windowStep_ok_some hg with
    ⟨p, c, n, tp, tc, tn, hp, hc, hn, _, _, _, _, _, htr, _, _⟩
  rw [← hfi, hfg, htr] at ht
  have hmem : t ∈ dexFilter transactions := by
    rcases (by simpa using ht : t = p ∨ t = c ∨ t = n) with h1 | h1 | h1
    · exact h1 ▸ List.getElem?_mem hp
    · exact h1 ▸ List.getElem?_mem hc
    · exact h1 ▸ List.getElem?_mem hn
  have hpred := List.of_mem_filter hmem
  simp only [Bool.and_eq_true] at hpred
  exact ⟨hpred.1, Option.isSome_iff_ne_none.mp hpred.2⟩

/-- Witness for C1 at scenario A. -/
theorem C1_witness :
    (mkDexTx "a1" 5 Direction.buy).isDex = true ∧
    (mkDexTx "a1" 5 Direction.buy).direction ≠ none :=
  C1_findings_reference_only_classified_dex scenarioA
    [⟨"buy-victim-sell", scenarioA, [5, 5]⟩] rfl
    ⟨"buy-victim-sell", scenarioA, [5, 5]⟩ (by decide)
    (mkDexTx "a1" 5 Direction.buy) (by decide)

/-- Claim C2: every gap recorded in an emitted finding is at most the
30-second window; a gap of exactly 30 seconds still emits, a gap of 31
seconds emits nothing. -/
theorem C2_gaps_within_window :
    (∀ (transactions : List ProcessedTx) (fs : List Finding),
       detect_sandwich_patterns transactions = Except.ok fs →
       ∀ f ∈ fs, ∀ g ∈ f.timeDiffs, g ≤ 30) ∧
    detect_sandwich_patterns scenarioGap30 =
      Except.ok [⟨"buy-victim-sell", scenarioGap30, [30, 30]⟩] ∧
    detect_sandwich_patterns scenarioGap31 = Except.ok [] := by
  refine ⟨?_, rfl, rfl⟩
  intro transactions fs h f hf g hg
  have hcorr : fs = ((List.range' 1 ((dexFilter transactions).length - 2)).filter
      (emitsAt (dexFilter transactions))).map (findingAt (dexFilter transactions)) :=
    detect_go_ok h
  rw [hcorr] at hf
  rcases List.mem_map.mp hf with ⟨i, hi, hfi⟩
  rcases emitsAt_true_iff.mp (List.mem_filter.mp hi).2 with ⟨g', hg'⟩
  rcases windowStep_ok_some hg' with
    ⟨p, c, n, tp, tc, tn, _, _, _, _, _, _, h30a, h30b, _, htd, _⟩
  rw [← hfi, findingAt_eq hg', htd] at hg
  rcases (by simpa using hg :
      g = (tc - tp).natAbs ∨ g = (tn - tc).natAbs) with h1 | h1 <;> omega

/-- Witness for C2 at scenario A. -/
theorem C2_witness : (5 : Nat) ≤ 30 :=
  C2_gaps_within_window.1 scenarioA [⟨"buy-victim-sell", scenarioA, [5, 5]⟩] rfl
    ⟨"buy-victim-sell", scenarioA, [5, 5]⟩ (by decide) 5 (by decide)

/-- Claim C9: on a successful run the findings are exactly those of the
emitting windows, and for every position `j` of the DEX-sequence at most
two emitting windows reference the entry at `j` (a window `i` references
positions `i-1`, `i`, `i+1`): no transaction occurrence appears in three or
more findings. -/
theorem C9_transaction_in_at_most_two_findings
    (transactions : List ProcessedTx) (fs : List Finding)
    (h : detect_sandwich_patterns transactions = Except.ok fs) (j : Nat) :
    fs = (emittingWindows (dexFilter transactions)).map
      (findingAt (dexFilter transactions)) ∧
    ((emittingWindows (dexFilter transactions)).filter
      (fun i => decide (i = j + 1 ∨ i = j ∨ i + 1 = j))).length ≤ 2 :=
  ⟨detect_go_ok h, emittingWindows_near_le_two (dexFilter transactions) j⟩

/-- Witness for C9 at scenario A, position 1. -/
theorem C9_witness :
    [(⟨"buy-victim-sell", scenarioA, [5, 5]⟩ : Finding)] =
      (emittingWindows (dexFilter scenarioA)).map (findingAt (dexFilter scenarioA)) ∧
    ((emittingWindows (dexFilter scenarioA)).filter
      (fun i => decide (i = 1 + 1 ∨ i = 1 ∨ i + 1 = 1))).length ≤ 2 :=
  C9_transaction_in_at_most_two_findings scenarioA
    [⟨"buy-victim-sell", scenarioA, [5, 5]⟩] rfl 1

/-- Claim C3: for every interior triple of consecutive DEX-sequence entries
whose gaps are within the window, directions buy-buy-sell put the
buy-victim-sell finding (leader = prev, victim = curr, trailer = next) into
the output, directions sell-sell-buy the sell-victim-buy finding, and any
other combination emits nothing from that window; scenario A (t = 0, 5, 10
with buy, buy, sell) yields exactly one buy-victim-sell finding with gaps
5 and 5. -/
theorem C3_pattern_triples :
    (∀ (transactions : List ProcessedTx) (fs : List Finding) (i : Nat)
       (p c n : ProcessedTx) (tp tc tn : Int),
       detect_sandwich_patterns transactions = Except.ok fs →
       1 ≤ i →
       (dexFilter transactions)[i-1]? = some p →
       (dexFilter transactions)[i]? = some c →
       (dexFilter transactions)[i+1]? = some n →
       p.timestamp = some tp → c.timestamp = some tc → n.timestamp = some tn →
       (tc - tp).natAbs ≤ 30 → (tn - tc).natAbs ≤ 30 →
       ((p.direction = some Direction.buy ∧ c.direction = some Direction.buy ∧
           n.direction = some Direction.sell →
         (⟨"buy-victim-sell", [p, c, n],
           [(tc - tp).natAbs, (tn - tc).natAbs]⟩ : Finding) ∈ fs) ∧
        (p.direction = some Direction.sell ∧ c.direction = some Direction.sell ∧
           n.direction = some Direction.buy →
         (⟨"sell-victim-buy", [p, c, n],
           [(tc - tp).natAbs, (tn - tc).natAbs]⟩ : Finding) ∈ fs) ∧
        (¬(p.direction = some Direction.buy ∧ c.direction = some Direction.buy ∧
             n.direction = some Direction.sell) →
         ¬(p.direction = some Direction.sell ∧ c.direction = some Direction.sell ∧
             n.direction = some Direction.buy) →
         emitsAt (dexFilter transactions) i = false))) ∧
    detect_sandwich_patterns scenarioA =
      Except.ok [⟨"buy-victim-sell", scenarioA, [5, 5]⟩] := by
  refine ⟨?_, rfl⟩
  intro transactions fs i p c n tp tc tn h h1 hp hc hn htp htc htn hg1 hg2
  have heval := windowStep_eval hp hc hn htp htc htn
  have hgap : ¬((tc - tp).natAbs > 30 ∨ (tn - tc).natAbs > 30) := by omega
  rw [if_neg hgap] at heval
  have hmemrange : i ∈ List.range' 1 ((dexFilter transactions).length - 2) := by
    have hlen : i + 1 < (dexFilter transactions).length :=
      (List.getElem?_eq_some.mp hn).1
    rw [List.mem_range'_1]
    omega
  have hcorr := detect_go_ok h
  refine ⟨?_, ?_, ?_⟩
  · intro hbbs
    have hw : windowStep (dexFilter transactions) i =
        Except.ok (some ⟨"buy-victim-sell", [p, c, n],
          [(tc - tp).natAbs, (tn - tc).natAbs]⟩) := by
      rw [heval, if_pos hbbs]
    have hem : emitsAt (dexFilter transactions) i = true :=
      emitsAt_true_iff.mpr ⟨_, hw⟩
    have hmem := List.mem_map_of_mem (findingAt (dexFilter transactions))
      (List.mem_filter.mpr ⟨hmemrange, hem⟩)
    rw [hcorr]
    rwa [findingAt_eq hw] at hmem
  · intro hssb
    have hnbbs : ¬(p.direction = some Direction.buy ∧
        c.direction = some Direction.buy ∧ n.direction = some Direction.sell) := by
      rintro ⟨hb, _, _⟩
      rw [hssb.1] at hb
      simp at hb
    have hw : windowStep (dexFilter transactions) i =
        Except.ok (some ⟨"sell-victim-buy", [p, c, n],
          [(tc - tp).natAbs, (tn - tc).natAbs]⟩) := by
      rw [heval, if_neg hnbbs, if_pos hssb]
    have hem : emitsAt (dexFilter transactions) i = true :=
      emitsAt_true_iff.mpr ⟨_, hw⟩
    have hmem := List.mem_map_of_mem (findingAt (dexFilter transactions))
      (List.mem_filter.mpr ⟨hmemrange, hem⟩)
    rw [hcorr]
    rwa [findingAt_eq hw] at hmem
  · intro hn1 hn2
    have hw : windowStep (dexFilter transactions) i = Except.ok none := by
      rw [heval, if_neg hn1, if_neg hn2]
    simp [emitsAt, hw]

/-- Witness for C3 at scenario A, window 1. -/
theorem C3_witness :
    (⟨"buy-victim-sell", scenarioA, [5, 5]⟩ : Finding) ∈
      [(⟨"buy-victim-sell", scenarioA, [5, 5]⟩ : Finding)] :=
  (C3_pattern_triples.1 scenarioA [⟨"buy-victim-sell", scenarioA, [5, 5]⟩] 1
      (mkDexTx "a0" 0 .buy) (mkDexTx "a1" 5 .buy) (mkDexTx "a2" 10 .sell)
      0 5 10 rfl (by decide) rfl rfl rfl rfl rfl rfl (by decide) (by decide)).1
    ⟨rfl, rfl, rfl⟩

/-- Witness for C8 at concrete inputs. -/
theorem C8_witness :
    analyze_swap_direction (TxData.dict ⟨some false, .list [], []⟩) "tok" = none ∧
    (⟨"s", none, sampleDict, true, none⟩ : ProcessedTx) ∉
      dexFilter [⟨"s", none, sampleDict, true, none⟩] :=
  ⟨C8_malformed_classifies_none.2.1 ⟨some false, .list [], []⟩ "tok" rfl,
   C8_malformed_classifies_none.2.2.2.2 [⟨"s", none, sampleDict, true, none⟩]
     ⟨"s", none, sampleDict, true, none⟩ rfl⟩

/-- The CLI processing loop emits no duplicate signatures and never emits a
signature recorded in `analyzed_signatures`. -/
theorem detectLoop_sigs_nodup (fetchDetail : String → Option TxDict)
    (dexPrograms : List String) (token_address : String)
    (txs : List TxSummary) (seen : List String) :
    ((detectLoop fetchDetail dexPrograms token_address txs seen).map
      (fun e => e.signature)).Nodup ∧
    ∀ s ∈ seen,
      s ∉ (detectLoop fetchDetail dexPrograms token_address txs seen).map
        (fun e => e.signature) := by
  induction txs generalizing seen with
  | nil => simp [detectLoop]
  | cons tx rest ih =>
    cases hsig : tx.signature with
    | none => simpa [detectLoop, hsig] using ih seen
    | some signature =>
      by_cases hskip : signature = "" ∨ signature ∈ seen
      · simpa [detectLoop, hsig, hskip] using ih seen
      · have ih' := ih (signature :: seen)
        cases hfd : fetchDetail signature with
        | none =>
          refine ⟨by simpa [detectLoop, hsig, hskip, hfd] using ih'.1, ?_⟩
          intro s hs
          simpa [detectLoop, hsig, hskip, hfd] using ih'.2 s (by simp [hs])
        | some det =>
          cases hts : tx.timestamp with
          | none =>
            refine ⟨by simpa [detectLoop, hsig, hskip, hfd, hts] using ih'.1, ?_⟩
            intro s hs
            simpa [detectLoop, hsig, hskip, hfd, hts] using ih'.2 s (by simp [hs])
          | some ts =>
            by_cases hdex : is_dex_interaction (.dict det) dexPrograms = true
            · cases hdir : analyze_swap_direction (.dict det) token_address with
              | none =>
                refine ⟨by simpa [detectLoop, hsig, hskip, hfd, hts, hdex, hdir]
                  using ih'.1, ?_⟩
                intro s hs
                simpa [detectLoop, hsig, hskip, hfd, hts, hdex, hdir]
                  using ih'.2 s (by simp [hs])
              | some dir =>
                have hstep : detectLoop fetchDetail dexPrograms token_address
                    (tx :: rest) seen =
                    ⟨signature, dir, ts, det⟩ ::
                      detectLoop fetchDetail dexPrograms token_address rest
                        (signature :: seen) := by
                  simp [detectLoop, hsig, hskip, hfd, hts, hdex, hdir]
                rw [hstep]
                refine ⟨?_, ?_⟩
                · rw [List.map_cons, List.nodup_cons]
                  exact ⟨ih'.2 signature (by simp), ih'.1⟩
                · intro s hs
                  rw [List.map_cons, List.mem_cons]
                  rintro (h' | h')
                  · rw [h'] at hs
                    exact hskip (Or.inr hs)
                  · exact ih'.2 s (by simp [hs]) h'
            · have hdex' : is_dex_interaction (.dict det) dexPrograms = false :=
                Bool.not_eq_true _ ▸ eq_false_of_ne_true hdex
              refine ⟨by simpa [detectLoop, hsig, hskip, hfd, hts, hdex']
                using ih'.1, ?_⟩
              intro s hs
              simpa [detectLoop, hsig, hskip, hfd, hts, hdex']
                using ih'.2 s (by simp [hs])

/-- Every entry the CLI processing loop emits comes from an input summary
whose signature is present and whose timestamp is numeric. -/
theorem detectLoop_entries_from_valid_summaries
    (fetchDetail : String → Option TxDict) (dexPrograms : List String)
    (token_address : String) (txs : List TxSummary) (seen : List String)
    (e : DexTx) (he : e ∈ detectLoop fetchDetail dexPrograms token_address txs seen) :
    ∃ tx ∈ txs, tx.signature = some e.signature ∧ tx.timestamp = some e.timestamp := by
  induction txs generalizing seen with
  | nil => simp [detectLoop] at he
  | cons tx rest ih =>
    cases hsig : tx.signature with
    | none =>
      rcases ih seen (by simpa [detectLoop, hsig] using he) with ⟨tx', htx', hprop⟩
      exact ⟨tx', by simp [htx'], hprop⟩
    | some signature =>
      by_cases hskip : signature = "" ∨ signature ∈ seen
      · rcases ih seen (by simpa [detectLoop, hsig, hskip] using he) with
          ⟨tx', htx', hprop⟩
        exact ⟨tx', by simp [htx'], hprop⟩
      · cases hfd : fetchDetail signature with
        | none =>
          rcases ih (signature :: seen)
              (by simpa [detectLoop, hsig, hskip, hfd] using he) with
            ⟨tx', htx', hprop⟩
          exact ⟨tx', by simp [htx'], hprop⟩
        | some det =>
          cases hts : tx.timestamp with
          | none =>
            rcases ih (signature :: seen)
                (by simpa [detectLoop, hsig, hskip, hfd, hts] using he) with
              ⟨tx', htx', hprop⟩
            exact ⟨tx', by simp [htx'], hprop⟩
          | some ts =>
            by_cases hdex : is_dex_interaction (.dict det) dexPrograms = true
            · cases hdir : analyze_swap_direction (.dict det) token_address with
              | none =>
                rcases ih (signature :: seen)
                    (by simpa [detectLoop, hsig, hskip, hfd, hts, hdex, hdir]
                      using he) with ⟨tx', htx', hprop⟩
                exact ⟨tx', by simp [htx'], hprop⟩
              | some dir =>
                have he' : e = ⟨signature, dir, ts, det⟩ ∨
                    e ∈ detectLoop fetchDetail dexPrograms token_address rest
                      (signature :: seen) := by
                  simpa [detectLoop, hsig, hskip, hfd, hts, hdex, hdir] using he
                rcases he' with he' | he'
                · exact ⟨tx, by simp, by simp [hsig, he'], by simp [hts, he']⟩
                · rcases ih (signature :: seen) he' with ⟨tx', htx', hprop⟩
                  exact ⟨tx', by simp [htx'], hprop⟩
            · have hdex' : is_dex_interaction (.dict det) dexPrograms = false :=
                Bool.not_eq_true _ ▸ eq_false_of_ne_true hdex
              rcases ih (signature :: seen)
                  (by simpa [detectLoop, hsig, hskip, hfd, hts, hdex'] using he) with
                ⟨tx', htx', hprop⟩
              exact ⟨tx', by simp [htx'], hprop⟩

/-- Claim C4 counterexample: a listing with the same signature `"A"` twice
makes the `/analyze` route emit two classified transactions for `"A"` — the
route's loop has no deduplication, so a duplicated signature does not yield
exactly one entry. -/
theorem C4_counterexample :
    analyze (fun _ => some sampleDict) [] 1000 100
      (fun _ => ListingResponse.items [⟨some "A", some 1⟩, ⟨some "A", some 2⟩])
      (some "tok") none =
    AnalyzeResult.ok
      ⟨"tok",
       [⟨"A", some 1, sampleDict, false, none⟩, ⟨"A", some 2, sampleDict, false, none⟩],
       [], ⟨2, 0, 0⟩⟩ := rfl

/-- Claim C4 amended: the CLI pipeline (`detect_sandwich_attacks`) analyzes
each signature at most once, so its DEX-transaction list holds no duplicate
signatures; the `/analyze` route does not deduplicate, and each occurrence
of a signature whose fetch succeeds yields its own classified
transaction. -/
theorem C4_amended :
    (∀ (fetchDetail : String → Option TxDict) (dexPrograms : List String)
       (token_address : String) (txs : List TxSummary),
       ((detectLoop fetchDetail dexPrograms token_address txs []).map
         (fun e => e.signature)).Nodup) ∧
    (analyzeProcess (fun _ => some sampleDict) [] "tok"
        [⟨some "A", some 1⟩, ⟨some "A", some 2⟩]).map (fun t => t.signature) =
      ["A", "A"] :=
  ⟨fun fetchDetail dexPrograms token_address txs =>
    (detectLoop_sigs_nodup fetchDetail dexPrograms token_address txs []).1, rfl⟩

/-- Claim C5 counterexample: a `lookbackLimit` of `0` with configured
maximum `1000` is passed through as `0` — neither raised to `1` nor
rejected — and the provider listing is invoked with limit `0`, observable in
the result. -/
theorem C5_counterexample :
    clampLookback 1000 (LookbackInput.num 0) = some 0 ∧
    analyze (fun _ => some sampleDict) [] 1000 100
      (fun limit => if limit = 0 then ListingResponse.items [⟨some "Z", some 3⟩]
        else ListingResponse.items [])
      (some "tok") (some (LookbackInput.num 0)) =
    AnalyzeResult.ok ⟨"tok", [⟨"Z", some 3, sampleDict, false, none⟩], [], ⟨1, 0, 0⟩⟩ :=
  ⟨rfl, rfl⟩

/-- Claim C5 amended: the route clamps the lookback limit only from above,
`min(int(v), maxLookbackLimit)`; values below 1 pass through unchanged;
`"2000"` with maximum `1000` becomes `1000`; and only a value that `int()`
cannot parse yields the invalid-input error. -/
theorem C5_amended :
    (∀ (maxLookback : Int) (v : LookbackInput) (n : Int),
       clampLookback maxLookback v = some n → n ≤ maxLookback) ∧
    clampLookback 1000 (LookbackInput.str "2000") = some 1000 ∧
    clampLookback 1000 (LookbackInput.str "abc") = none ∧
    (∀ (fetchDetail : String → Option TxDict) (dexPrograms : List String)
       (maxLookback defaultLookback : Int)
       (listTransactions : Int → ListingResponse) (tokenAddress : Option String),
       analyze fetchDetail dexPrograms maxLookback defaultLookback listTransactions
         tokenAddress (some (LookbackInput.str "abc")) =
       AnalyzeResult.badRequest "Invalid lookback limit") := by
  refine ⟨?_, rfl, rfl, ?_⟩
  · intro maxLookback v n h
    cases hv : pyInt v with
    | none => simp [clampLookback, hv] at h
    | some m =>
      simp only [clampLookback, hv] at h
      injection h with h
      subst h
      exact min_le_right _ _
  · intro fetchDetail dexPrograms maxLookback defaultLookback listTransactions tokenAddress
    rfl

/-- Witness for the amended C5 at concrete inputs. -/
theorem C5_witness : (1000 : Int) ≤ 1000 :=
  C5_amended.1 1000 (LookbackInput.str "2000") 1000 rfl

/-- Claim C6: a failed, non-list, or empty provider listing makes the route
return the success payload with empty sequences and all-zero stats, not an
error. -/
theorem C6_empty_listing_success
    (fetchDetail : String → Option TxDict) (dexPrograms : List String)
    (maxLookback defaultLookback : Int) (tokenAddress : String)
    (lookbackLimit : Option LookbackInput) (n : Int)
    (htok : tokenAddress ≠ "")
    (hlb : pyInt (lookbackLimit.getD (LookbackInput.num defaultLookback)) = some n) :
    analyze fetchDetail dexPrograms maxLookback defaultLookback
        (fun _ => ListingResponse.failure) (some tokenAddress) lookbackLimit =
      AnalyzeResult.ok ⟨tokenAddress, [], [], ⟨0, 0, 0⟩⟩ ∧
    analyze fetchDetail dexPrograms maxLookback defaultLookback
        (fun _ => ListingResponse.nonlist) (some tokenAddress) lookbackLimit =
      AnalyzeResult.ok ⟨tokenAddress, [], [], ⟨0, 0, 0⟩⟩ ∧
    analyze fetchDetail dexPrograms maxLookback defaultLookback
        (fun _ => ListingResponse.items []) (some tokenAddress) lookbackLimit =
      AnalyzeResult.ok ⟨tokenAddress, [], [], ⟨0, 0, 0⟩⟩ := by
  refine ⟨?_, ?_, ?_⟩ <;>
    simp [analyze, clampLookback, hlb, htok, fetch_token_transactions,
      analyzeProcess, detect_sandwich_patterns, dexFilter, detect_go]

/-- Witness for C6 at concrete inputs. -/
theorem C6_witness :
    analyze (fun _ => some sampleDict) [] 1000 100
        (fun _ => ListingResponse.failure) (some "tok") none =
      AnalyzeResult.ok ⟨"tok", [], [], ⟨0, 0, 0⟩⟩ ∧
    analyze (fun _ => some sampleDict) [] 1000 100
        (fun _ => ListingResponse.nonlist) (some "tok") none =
      AnalyzeResult.ok ⟨"tok", [], [], ⟨0, 0, 0⟩⟩ ∧
    analyze (fun _ => some sampleDict) [] 1000 100
        (fun _ => ListingResponse.items []) (some "tok") none =
      AnalyzeResult.ok ⟨"tok", [], [], ⟨0, 0, 0⟩⟩ :=
  C6_empty_listing_success (fun _ => some sampleDict) [] 1000 100 "tok" none 100
    (by decide) rfl

/-- Claim C7 counterexample: a summary with a missing timestamp is not
dropped by the `/analyze` route — its detail is fetched and it appears in
the emitted classified-transaction sequence with `timestamp = none`. -/
theorem C7_counterexample :
    analyze (fun _ => some sampleDict) [] 1000 100
      (fun _ => ListingResponse.items [⟨some "S", none⟩]) (some "tok") none =
    AnalyzeResult.ok ⟨"tok", [⟨"S", none, sampleDict, false, none⟩], [], ⟨1, 0, 0⟩⟩ :=
  rfl

/-- Claim C7 amended: in the CLI pipeline (`detect_sandwich_attacks`) a
transaction with a missing or non-numeric timestamp is dropped — though only
after its detail has been fetched — and never contributes an entry; in the
`/analyze` route such a transaction is not dropped and appears in the
classified-transaction sequence with its invalid timestamp. -/
theorem C7_amended :
    (∀ (fetchDetail : String → Option TxDict) (dexPrograms : List String)
       (token_address : String) (txs : List TxSummary) (e : DexTx),
       e ∈ detectLoop fetchDetail dexPrograms token_address txs [] →
       ∃ tx ∈ txs, tx.signature = some e.signature ∧
         tx.timestamp = some e.timestamp) ∧
    (analyzeProcess (fun _ => some sampleDict) [] "tok" [⟨some "S", none⟩]).map
      (fun t => t.timestamp) = [none] :=
  ⟨fun fetchDetail dexPrograms token_address txs e he =>
    detectLoop_entries_from_valid_summaries fetchDetail dexPrograms token_address
      txs [] e he, rfl⟩

/-- Witness for the amended C7 at concrete inputs. -/
theorem C7_witness :
    ∃ tx ∈ [(⟨some "T", some 7⟩ : TxSummary)],
      tx.signature = some "T" ∧ tx.timestamp = some (7 : Int) :=
  C7_amended.1 (fun _ => some buyDict) ["DEX1"] "tok" [⟨some "T", some 7⟩]
    ⟨"T", Direction.buy, 7, buyDict⟩ (by decide)

end SandwichAlert
